import Mathlib

/-!
Shallow embedding of `osm_fieldwork/OdkCentralAsync.py`, an async ODK Central
REST client.  Network I/O is modelled by passing each operation the outcome of
its HTTP call(s) as an explicit oracle argument; every operation returns the
list of HTTP requests it issued, the state after the call, and either a value
or the Python exception that escaped.
-/

/-- JSON values, as produced by `await response.json()`. -/
inductive Json where
  | null : Json
  | bool : Bool → Json
  | num : Int → Json
  | str : String → Json
  | arr : List Json → Json
  | obj : List (String × Json) → Json
deriving Repr

/-- Association-list lookup, mirroring Python `dict[key]` / `dict.get(key)`
(dicts keep insertion order; the embedding keeps first occurrence). -/
def lookupField : List (String × Json) → String → Option Json
  | [], _ => none
  | (k, v) :: rest, key => if k = key then some v else lookupField rest key

/-- Python `key in data` membership test on a dict. -/
def containsKey (fields : List (String × Json)) (key : String) : Bool :=
  (lookupField fields key).isSome

/-- Python exceptions that the client can raise or catch. -/
inductive PyError where
  | valueError : String → PyError
  | keyError : String → PyError
  | typeError : String → PyError
  | runtimeError : String → PyError
  | clientError : String → PyError
  | otherError : String → PyError
deriving Repr, DecidableEq

/-- Outcome of one HTTP round-trip (`session.<verb>(...)` followed by
`await response.json()`), supplied to each operation as an oracle:
either the decoded JSON body, an `aiohttp.ClientError` (which also covers
non-2xx statuses, since the session is built with `raise_for_status=True`),
or any other exception type. -/
inductive HttpOutcome where
  | ok : Json → HttpOutcome
  | clientError : String → HttpOutcome
  | otherError : String → HttpOutcome
deriving Repr

/-- HTTP verbs used by the client. -/
inductive Method where
  | get | post | patch | delete
deriving Repr, DecidableEq

/-- An HTTP request as issued by the client.  Query strings appended by the
source with f-strings (`?baseVersion=...`, `?force=true`) are part of `url`,
exactly as in the source; `params` is the separate `params=` keyword of
`listSubmissions`; `headers` are per-request extra headers. -/
structure Request where
  method : Method
  url : String
  params : Option Json := none
  headers : List (String × String) := []
  payload : Option Json := none
deriving Repr

/-- `dict.update` on a string-to-string header mapping: existing keys are
overwritten in place, new keys appended (Python dicts keep insertion order). -/
def updateAssoc (hs : List (String × String)) (k v : String) : List (String × String) :=
  if hs.any (fun p => p.1 = k) then
    hs.map (fun p => if p.1 = k then (k, v) else p)
  else
    hs ++ [(k, v)]

/-- The `aiohttp.ClientSession`: only its default-header state is modelled,
which is all the client ever touches on it. -/
structure SessionState where
  headers : List (String × String)
deriving Repr, DecidableEq

/-- Python `str()` rendering as used in f-strings.  Container renderings are
abbreviated: the client only interpolates the token from authentication,
which is a string in every scenario the claims cover. -/
def pyStr : Json → String
  | .null => "None"
  | .bool true => "True"
  | .bool false => "False"
  | .num n => toString n
  | .str s => s
  | .arr _ => "<list>"
  | .obj _ => "<dict>"

/-- State of an `OdkCentral` instance (and of its subclasses `OdkProject` and
`OdkEntity`, which add no constructor state of their own; `forms` is the
attribute `listForms` assigns on `OdkProject`). -/
structure OdkCentralState where
  url : String
  user : String
  passwd : String
  verify : Bool
  version : String
  base : String
  session : Option SessionState
  forms : Option Json
deriving Repr

/-- `OdkCentral.__init__` after URL/user/password resolution: the environment
fallbacks are outside the embedding, so the resolved values are parameters. -/
def OdkCentral.init (url user passwd : String) (verify : Bool) : OdkCentralState :=
  { url := url
    user := user
    passwd := passwd
    verify := verify
    version := "v1"
    base := url ++ "/" ++ "v1" ++ "/"
    session := none
    forms := none }

/-- `OdkCentral.__enter__`: the synchronous context manager unconditionally
raises `RuntimeError`. -/
def OdkCentral.enterSync (_s : OdkCentralState) : Except PyError OdkCentralState :=
  .error (.runtimeError "Must be called with async context manager 'async with'")

/-- `OdkCentral.__exit__`: likewise raises `RuntimeError`. -/
def OdkCentral.exitSync (_s : OdkCentralState) : Except PyError OdkCentralState :=
  .error (.runtimeError "Must be called with async context manager 'async with'")

/-- `OdkCentral.authenticate`: POST `{base}sessions` with the credentials,
read `token` out of the JSON body, and install it as a default
`Authorization: Bearer <token>` header on the session.  No `try` block:
transport errors propagate to the caller. -/
def OdkCentral.authenticate (s : OdkCentralState) (outcome : HttpOutcome) :
    Except PyError OdkCentralState :=
  match s.session with
  | none => .error (.otherError "AttributeError: no session")
  | some sess =>
    match outcome with
    | .ok body =>
      match body with
      | .obj fields =>
        match lookupField fields "token" with
        | some token =>
          .ok { s with
                session := some
                  ⟨updateAssoc sess.headers "Authorization" ("Bearer " ++ pyStr token)⟩ }
        | none => .error (.keyError "token")
      | _ => .error (.typeError "response body is not subscriptable by string")
    | .clientError e => .error (.clientError e)
    | .otherError e => .error (.otherError e)

/-- `OdkCentral.__aenter__`: build the session with the persistent-connection
`accept: odkcentral` default header, then authenticate immediately. -/
def OdkCentral.aenter (s : OdkCentralState) (authOutcome : HttpOutcome) :
    Except PyError OdkCentralState :=
  OdkCentral.authenticate
    { s with session := some ⟨[("accept", "odkcentral")]⟩ } authOutcome

/-- `OdkProject.listForms`: GET the forms list, store it into `self.forms`
and return it; on `aiohttp.ClientError` log and return `[]`. -/
def OdkProject.listForms (s : OdkCentralState) (projectId : Int) (metadata : Bool)
    (outcome : HttpOutcome) : List Request × OdkCentralState × Except PyError Json :=
  let url := s.base ++ "projects/" ++ toString projectId ++ "/forms"
  let hdrs := if metadata then updateAssoc [] "X-Extended-Metadata" "true" else []
  let req : Request := { method := .get, url := url, headers := hdrs }
  match outcome with
  | .ok body => ([req], { s with forms := some body }, .ok body)
  | .clientError _ => ([req], s, .ok (Json.arr []))
  | .otherError e => ([req], s, .error (.otherError e))

/-- `OdkProject.listSubmissions`: GET the OData submissions envelope for one
form; on `aiohttp.ClientError` log and return `{}` (an empty dict). -/
def OdkProject.listSubmissions (s : OdkCentralState) (projectId : Int) (xform : String)
    (filters : Option Json) (outcome : HttpOutcome) :
    List Request × OdkCentralState × Except PyError Json :=
  let url := s.base ++ "projects/" ++ toString projectId ++ "/forms/" ++ xform
      ++ ".svc/Submissions"
  let req : Request := { method := .get, url := url, params := filters }
  match outcome with
  | .ok body => ([req], s, .ok body)
  | .clientError _ => ([req], s, .ok (Json.obj []))
  | .otherError e => ([req], s, .error (.otherError e))

/-- Python iteration over a value used by `len(...)` and `list.extend(...)`:
lists yield their elements, strings their characters, dicts their keys;
anything else raises `TypeError`. -/
def pyElems : Json → Except PyError (List Json)
  | .arr xs => .ok xs
  | .str t => .ok (t.toList.map (fun c => Json.str (String.singleton c)))
  | .obj fields => .ok (fields.map (fun p => Json.str p.1))
  | _ => .error (.typeError "object is not iterable")

/-- The aggregation loop of `getAllProjectSubmissions`: walk the gathered task
results (`return_exceptions=True` turns a raising task into an exception
value), skip-and-log exceptions, and for each remaining result evaluate
`submission["value"]` and extend the accumulator with it. -/
def collectSubmissionValues :
    List (Except PyError Json) → List Json → Except PyError (List Json)
  | [], acc => .ok acc
  | .error _ :: rest, acc => collectSubmissionValues rest acc
  | .ok sub :: rest, acc =>
    match sub with
    | .obj fields =>
      match lookupField fields "value" with
      | none => .error (.keyError "value")
      | some v =>
        match pyElems v with
        | .error e => .error e
        | .ok xs => collectSubmissionValues rest (acc ++ xs)
    | .arr _ => .error (.typeError "list indices must be integers")
    | .str _ => .error (.typeError "string indices must be integers")
    | _ => .error (.typeError "object is not subscriptable")

/-- `OdkProject.getAllProjectSubmissions`: launch one `listSubmissions` task
per form, `gather` them with `return_exceptions=True`, then run the
aggregation loop.  Each form comes with the oracle outcome of its fetch. -/
def OdkProject.getAllProjectSubmissions (s : OdkCentralState) (projectId : Int)
    (xforms : List (String × HttpOutcome)) (filters : Option Json) :
    List Request × OdkCentralState × Except PyError (List Json) :=
  let tasks := xforms.map (fun p => OdkProject.listSubmissions s projectId p.1 filters p.2)
  let requests := (tasks.map (fun t => t.1)).foldl (· ++ ·) []
  let results := tasks.map (fun t => t.2.2)
  (requests, s, collectSubmissionValues results [])

/-- `OdkEntity.listDatasets`: GET the dataset metadata list; on
`aiohttp.ClientError` log and return `[]`. -/
def OdkEntity.listDatasets (s : OdkCentralState) (projectId : Int)
    (outcome : HttpOutcome) : List Request × OdkCentralState × Except PyError Json :=
  let url := s.base ++ "projects/" ++ toString projectId ++ "/datasets/"
  let req : Request := { method := .get, url := url }
  match outcome with
  | .ok body => ([req], s, .ok body)
  | .clientError _ => ([req], s, .ok (Json.arr []))
  | .otherError e => ([req], s, .error (.otherError e))

/-- `OdkEntity.listEntities`: GET the entity metadata list of one dataset; on
`aiohttp.ClientError` log and return `[]`. -/
def OdkEntity.listEntities (s : OdkCentralState) (projectId : Int)
    (datasetName : String) (outcome : HttpOutcome) :
    List Request × OdkCentralState × Except PyError Json :=
  let url := s.base ++ "projects/" ++ toString projectId ++ "/datasets/" ++ datasetName
      ++ "/entities"
  let req : Request := { method := .get, url := url }
  match outcome with
  | .ok body => ([req], s, .ok body)
  | .clientError _ => ([req], s, .ok (Json.arr []))
  | .otherError e => ([req], s, .error (.otherError e))

/-- `OdkEntity.createEntity`: require a `geometry` key in `data` (raising
`ValueError` before any request when missing), then POST
`{uuid, label, data}` with a fresh UUID (passed in as an oracle, since
`uuid4()` is random); on `aiohttp.ClientError` log and return `{}`. -/
def OdkEntity.createEntity (s : OdkCentralState) (projectId : Int)
    (datasetName : String) (label : String) (data : List (String × Json))
    (uuid : String) (outcome : HttpOutcome) :
    List Request × OdkCentralState × Except PyError Json :=
  if !(["geometry"].all (fun key => containsKey data key)) then
    ([], s, .error (.valueError "'geometry' data field is mandatory"))
  else
    let url := s.base ++ "projects/" ++ toString projectId ++ "/datasets/" ++ datasetName
        ++ "/entities"
    let req : Request :=
      { method := .post
        url := url
        payload := some (Json.obj
          [("uuid", Json.str uuid), ("label", Json.str label), ("data", Json.obj data)]) }
    match outcome with
    | .ok body => ([req], s, .ok body)
    | .clientError _ => ([req], s, .ok (Json.obj []))
    | .otherError e => ([req], s, .error (.otherError e))

/-- One entry of the `labelDataDict.items()` iteration feeding
`createEntities`, together with the per-task oracles. -/
structure CreateSpec where
  label : String
  data : List (String × Json)
  uuid : String
  outcome : HttpOutcome
deriving Repr

/-- The collection loop of `createEntities`: skip-and-log gathered exceptions,
append every non-exception task result in launch order. -/
def collectEntities : List (Except PyError Json) → List Json → List Json
  | [], acc => acc
  | .error _ :: rest, acc => collectEntities rest acc
  | .ok e :: rest, acc => collectEntities rest (acc ++ [e])

/-- `OdkEntity.createEntities`: launch one `createEntity` task per
label-to-data pair, `gather` with `return_exceptions=True`, then keep the
non-exception results in launch order. -/
def OdkEntity.createEntities (s : OdkCentralState) (projectId : Int)
    (datasetName : String) (entries : List CreateSpec) :
    List Request × OdkCentralState × Except PyError (List Json) :=
  let tasks := entries.map (fun e =>
    OdkEntity.createEntity s projectId datasetName e.label e.data e.uuid e.outcome)
  let requests := (tasks.map (fun t => t.1)).foldl (· ++ ·) []
  let results := tasks.map (fun t => t.2.2)
  (requests, s, .ok (collectEntities results []))

/-- Python truthiness of an optional string argument: absent and `""` are
falsy. -/
def pyTruthyStrOpt : Option String → Bool
  | none => false
  | some t => !(t = "")

/-- Python truthiness of an optional dict argument: absent and `{}` are
falsy. -/
def pyTruthyDictOpt : Option (List (String × Json)) → Bool
  | none => false
  | some d => !d.isEmpty

/-- Python truthiness of an optional int argument: absent and `0` are
falsy. -/
def pyTruthyIntOpt : Option Int → Bool
  | none => false
  | some n => !(n = 0)

/-- `OdkEntity.updateEntity`: raise `ValueError` before any request unless
`label` or `data` is truthy; build the partial payload from the truthy
fields (`data` first, then `label`, as in the source); append
`?baseVersion={newVersion - 1}` when `newVersion` is truthy, else
`?force=true`; PATCH; on `aiohttp.ClientError` log and return `{}`. -/
def OdkEntity.updateEntity (s : OdkCentralState) (projectId : Int)
    (datasetName entityUuid : String) (label : Option String)
    (data : Option (List (String × Json))) (newVersion : Option Int)
    (outcome : HttpOutcome) : List Request × OdkCentralState × Except PyError Json :=
  if !pyTruthyStrOpt label && !pyTruthyDictOpt data then
    ([], s, .error (.valueError "One of either the 'label' or 'data' fields must be passed"))
  else
    let json_data : List (String × Json) :=
      (if pyTruthyDictOpt data then [("data", Json.obj (data.getD []))] else []) ++
      (if pyTruthyStrOpt label then [("label", Json.str (label.getD ""))] else [])
    let entityUrl := s.base ++ "projects/" ++ toString projectId ++ "/datasets/"
        ++ datasetName ++ "/entities/" ++ entityUuid
    let url :=
      if pyTruthyIntOpt newVersion then
        entityUrl ++ "?baseVersion=" ++ toString ((newVersion.getD 0) - 1)
      else
        entityUrl ++ "?force=true"
    let req : Request := { method := .patch, url := url, payload := some (Json.obj json_data) }
    match outcome with
    | .ok body => ([req], s, .ok body)
    | .clientError _ => ([req], s, .ok (Json.obj []))
    | .otherError e => ([req], s, .error (.otherError e))

/-- `OdkEntity.deleteEntity`: DELETE the entity and return
`response_json.get("success", False)`; on `aiohttp.ClientError` log and
return `False`.  The result is a `Json` value because the source returns the
raw `success` field, whatever the server put there. -/
def OdkEntity.deleteEntity (s : OdkCentralState) (projectId : Int)
    (datasetName entityUuid : String) (outcome : HttpOutcome) :
    List Request × OdkCentralState × Except PyError Json :=
  let url := s.base ++ "projects/" ++ toString projectId ++ "/datasets/" ++ datasetName
      ++ "/entities/" ++ entityUuid
  let req : Request := { method := .delete, url := url }
  match outcome with
  | .ok body =>
    match body with
    | .obj fields => ([req], s, .ok ((lookupField fields "success").getD (Json.bool false)))
    | _ => ([req], s, .error (.otherError "AttributeError: no method get"))
  | .clientError _ => ([req], s, .ok (Json.bool false))
  | .otherError e => ([req], s, .error (.otherError e))

/-- `OdkEntity.getEntityData`: GET the flattened OData entity view and return
`envelope.get("value", {})`; on `aiohttp.ClientError` log and return `{}`. -/
def OdkEntity.getEntityData (s : OdkCentralState) (projectId : Int)
    (datasetName : String) (outcome : HttpOutcome) :
    List Request × OdkCentralState × Except PyError Json :=
  let url := s.base ++ "projects/" ++ toString projectId ++ "/datasets/" ++ datasetName
      ++ ".svc/Entities"
  let req : Request := { method := .get, url := url }
  match outcome with
  | .ok body =>
    match body with
    | .obj fields => ([req], s, .ok ((lookupField fields "value").getD (Json.obj [])))
    | _ => ([req], s, .error (.otherError "AttributeError: no method get"))
  | .clientError _ => ([req], s, .ok (Json.obj []))
  | .otherError e => ([req], s, .error (.otherError e))

/-- A concrete client instance used for concrete evaluations. -/
def sampleCentral : OdkCentralState :=
  OdkCentral.init "https://central.example.org" "admin@example.org" "pw" true

/-- The default-header state of the session held by a client state, the part
of the shared session that authentication mutates. -/
def sessionHeadersOf (s : OdkCentralState) : Option (List (String × String)) :=
  s.session.map SessionState.headers

/-- The JSON-object fields of the body of the single request issued by an
operation (empty when the operation issued no request or no object body). -/
def requestPayloadFields (r : List Request × OdkCentralState × Except PyError Json) :
    List (String × Json) :=
  match r.1 with
  | [req] =>
    match req.payload with
    | some (Json.obj fields) => fields
    | _ => []
  | _ => []

/-- C1: the code-level behavior of `getAllProjectSubmissions` with forms
`[A, B]` where A's fetch raises a transport error and B's succeeds.
`listSubmissions` swallows the `aiohttp.ClientError` and returns `{}`, which
is not an `Exception`, so the skip branch of the aggregation loop does not
fire; instead `submission["value"]` raises `KeyError('value')`, which escapes
to the caller — contradicting the claimed log-and-exclude behavior.  The
second conjunct shows that the skip branch does work for exceptions that are
not `aiohttp.ClientError` (the only ones `gather` ever sees). -/
theorem getAllProjectSubmissions_transport_error_raises :
    (OdkProject.getAllProjectSubmissions sampleCentral 1
        [("formA", HttpOutcome.clientError "connection refused"),
         ("formB", HttpOutcome.ok (Json.obj [("value", Json.arr [Json.str "subB1"])]))]
        none).2.2
      = Except.error (PyError.keyError "value") ∧
    (OdkProject.getAllProjectSubmissions sampleCentral 1
        [("formA", HttpOutcome.otherError "boom"),
         ("formB", HttpOutcome.ok (Json.obj [("value", Json.arr [Json.str "subB1"])]))]
        none).2.2
      = Except.ok [Json.str "subB1"] :=
  ⟨rfl, rfl⟩

/-- C4: `createEntity` with a data mapping lacking the `geometry` key raises
`ValueError` with zero HTTP requests issued; with `geometry` present the
local validation passes (exactly one request is issued and the result is
never the validation error), whatever the transport outcome. -/
theorem createEntity_geometry_validation (s : OdkCentralState) (p : Int)
    (dn label : String) (data : List (String × Json)) (uuid : String)
    (outcome : HttpOutcome) :
    (containsKey data "geometry" = false →
      OdkEntity.createEntity s p dn label data uuid outcome
        = ([], s, Except.error (PyError.valueError "'geometry' data field is mandatory"))) ∧
    (containsKey data "geometry" = true →
      (OdkEntity.createEntity s p dn label data uuid outcome).1.length = 1 ∧
      (OdkEntity.createEntity s p dn label data uuid outcome).2.2
        ≠ Except.error (PyError.valueError "'geometry' data field is mandatory")) := by
  constructor
  · intro h
    simp [OdkEntity.createEntity, h]
  · intro h
    cases outcome <;> simp [OdkEntity.createEntity, h]

/-- Witness for C4 at concrete inputs: a data mapping without `geometry`
fails locally with no request; one with `geometry` passes validation. -/
theorem createEntity_geometry_validation_witness :
    containsKey [("name", Json.str "x")] "geometry" = false ∧
    OdkEntity.createEntity sampleCentral 1 "trees" "Tree 1" [("name", Json.str "x")]
        "u1" (HttpOutcome.ok Json.null)
      = ([], sampleCentral,
         Except.error (PyError.valueError "'geometry' data field is mandatory")) :=
  ⟨rfl,
   (createEntity_geometry_validation sampleCentral 1 "trees" "Tree 1"
      [("name", Json.str "x")] "u1" (HttpOutcome.ok Json.null)).1 rfl⟩

/-- C6: `deleteEntity` returns the `success` field parsed from the response
body, defaulting to `False` when absent, returns `True` on body
`{"success": true}`, `False` on `{"success": false}`, and `False` on any
transport error. -/
theorem deleteEntity_success_flag (s : OdkCentralState) (p : Int) (dn eu : String) :
    ((OdkEntity.deleteEntity s p dn eu
        (HttpOutcome.ok (Json.obj [("success", Json.bool true)]))).2.2
      = Except.ok (Json.bool true)) ∧
    ((OdkEntity.deleteEntity s p dn eu
        (HttpOutcome.ok (Json.obj [("success", Json.bool false)]))).2.2
      = Except.ok (Json.bool false)) ∧
    (∀ e, (OdkEntity.deleteEntity s p dn eu (HttpOutcome.clientError e)).2.2
      = Except.ok (Json.bool false)) ∧
    (∀ fields, (OdkEntity.deleteEntity s p dn eu (HttpOutcome.ok (Json.obj fields))).2.2
      = Except.ok ((lookupField fields "success").getD (Json.bool false))) :=
  ⟨rfl, rfl, fun _ => rfl, fun _ => rfl⟩

/-- C7: on a transport (`aiohttp.ClientError`) failure, `listForms`,
`listDatasets` and `listEntities` all return an empty sequence as a normal
value — no exception propagates. -/
theorem list_ops_transport_error_empty (s : OdkCentralState) (p : Int)
    (dn : String) (m : Bool) (e : String) :
    ((OdkProject.listForms s p m (HttpOutcome.clientError e)).2.2
      = Except.ok (Json.arr [])) ∧
    ((OdkEntity.listDatasets s p (HttpOutcome.clientError e)).2.2
      = Except.ok (Json.arr [])) ∧
    ((OdkEntity.listEntities s p dn (HttpOutcome.clientError e)).2.2
      = Except.ok (Json.arr [])) :=
  ⟨rfl, rfl, rfl⟩

/-- C8: the synchronous context-manager entry always raises `RuntimeError`,
for every instance; only the asynchronous entry constructs the session (with
the persistent-connection header) and authenticates, installing the bearer
token as a default header. -/
theorem sync_enter_rejected (s : OdkCentralState) (token : String) :
    (OdkCentral.enterSync s
      = Except.error (PyError.runtimeError
          "Must be called with async context manager 'async with'")) ∧
    (OdkCentral.aenter s (HttpOutcome.ok (Json.obj [("token", Json.str token)]))
      = Except.ok { s with
          session :=
            some ⟨[("accept", "odkcentral"), ("Authorization", "Bearer " ++ token)]⟩ }) :=
  ⟨rfl, rfl⟩

/-- Running the collection loop of `createEntities` with an accumulator
prepends the accumulator to the run from the empty accumulator. -/
theorem collectEntities_acc : ∀ (l : List (Except PyError Json)) (acc : List Json),
    collectEntities l acc = acc ++ collectEntities l []
  | [], acc => by simp [collectEntities]
  | .error e :: rest, acc => by
    rw [show collectEntities (Except.error e :: rest) acc = collectEntities rest acc from rfl,
        show collectEntities (Except.error e :: rest) [] = collectEntities rest [] from rfl]
    exact collectEntities_acc rest acc
  | .ok j :: rest, acc => by
    rw [show collectEntities (Except.ok j :: rest) acc = collectEntities rest (acc ++ [j]) from rfl,
        show collectEntities (Except.ok j :: rest) [] = collectEntities rest ([] ++ [j]) from rfl,
        collectEntities_acc rest (acc ++ [j]), collectEntities_acc rest ([] ++ [j])]
    simp

/-- The collection loop of `createEntities` keeps exactly the non-exception
task results, in order. -/
theorem collectEntities_eq_filterMap (l : List (Except PyError Json)) :
    collectEntities l []
      = l.filterMap (fun r => match r with
          | .ok j => some j
          | .error _ => none) := by
  induction l with
  | nil => rfl
  | cons x rest ih =>
    cases x with
    | error e =>
      rw [show collectEntities (Except.error e :: rest) [] = collectEntities rest [] from rfl, ih]
      simp
    | ok j =>
      rw [show collectEntities (Except.ok j :: rest) [] = collectEntities rest [j] from rfl,
          show ([j] : List Json) = [] ++ [j] from rfl,
          collectEntities_acc rest ([] ++ [j]), ih]
      simp

/-- C2 (amended): the result of `createEntities` contains, in launch order,
one element per `createEntity` call that did not raise: calls failing the
local `geometry` validation (which raise `ValueError` into the gathered task)
are absent, while calls failing at the transport level contribute an empty
mapping `{}` at their launch position, because `createEntity` swallows
`aiohttp.ClientError` and returns `{}`, which is not an exception. -/
theorem createEntities_result (s : OdkCentralState) (p : Int) (dn : String)
    (entries : List CreateSpec) :
    (OdkEntity.createEntities s p dn entries).2.2
      = Except.ok (entries.filterMap (fun e =>
          if containsKey e.data "geometry" then
            match e.outcome with
            | HttpOutcome.ok body => some body
            | HttpOutcome.clientError _ => some (Json.obj [])
            | HttpOutcome.otherError _ => none
          else none)) := by
  simp only [OdkEntity.createEntities]
  rw [collectEntities_eq_filterMap, List.filterMap_map, List.filterMap_map]
  refine congrArg Except.ok (List.filterMap_congr fun e _ => ?_)
  by_cases h : containsKey e.data "geometry"
  · cases ho : e.outcome <;> simp [OdkEntity.createEntity, h, ho, Function.comp]
  · simp [OdkEntity.createEntity, h, Function.comp]

/-- C2 counterexample: a single entry that passes the local validation but
fails at the transport level is not absent from the result — it shows up as
an empty mapping, so the result has length one, not zero. -/
theorem createEntities_transport_placeholder_cex :
    (OdkEntity.createEntities sampleCentral 1 "trees"
        [⟨"Tree 1", [("geometry", Json.str "POINT(0 0)")], "uuid-1",
          HttpOutcome.clientError "connection refused"⟩]).2.2
      = Except.ok [Json.obj []] ∧
    Except.ok [Json.obj []] ≠ (Except.ok [] : Except PyError (List Json)) :=
  ⟨rfl, by simp⟩

/-- C3 (amended): when at least one of `label`/`data` is truthy, a call with
a nonzero integer `newVersion = n` PATCHes a URL carrying
`baseVersion = n - 1`, while a call with `newVersion` omitted — or equal to
`0`, since the source tests `if newVersion:` by truthiness — PATCHes a URL
carrying `force=true`. -/
theorem updateEntity_version_query (s : OdkCentralState) (p : Int) (dn eu : String)
    (label : Option String) (data : Option (List (String × Json))) (o : HttpOutcome)
    (h : (pyTruthyStrOpt label || pyTruthyDictOpt data) = true) :
    (∀ n : Int, ¬(n = 0) →
      (OdkEntity.updateEntity s p dn eu label data (some n) o).1.map Request.url
        = [s.base ++ "projects/" ++ toString p ++ "/datasets/" ++ dn ++ "/entities/"
            ++ eu ++ "?baseVersion=" ++ toString (n - 1)]) ∧
    ((OdkEntity.updateEntity s p dn eu label data none o).1.map Request.url
      = [s.base ++ "projects/" ++ toString p ++ "/datasets/" ++ dn ++ "/entities/"
          ++ eu ++ "?force=true"]) ∧
    ((OdkEntity.updateEntity s p dn eu label data (some 0) o).1.map Request.url
      = [s.base ++ "projects/" ++ toString p ++ "/datasets/" ++ dn ++ "/entities/"
          ++ eu ++ "?force=true"]) := by
  have hc : (!pyTruthyStrOpt label && !pyTruthyDictOpt data) = false := by
    cases hl : pyTruthyStrOpt label <;> cases hd : pyTruthyDictOpt data <;> simp_all
  refine ⟨fun n hn => ?_, ?_, ?_⟩
  · cases o <;> simp [OdkEntity.updateEntity, hc, pyTruthyIntOpt, hn]
  · cases o <;> simp [OdkEntity.updateEntity, hc, pyTruthyIntOpt]
  · cases o <;> simp [OdkEntity.updateEntity, hc, pyTruthyIntOpt]

/-- Witness for C3 at concrete inputs: `newVersion = 5` yields
`baseVersion=4` in the PATCH URL. -/
theorem updateEntity_version_query_witness :
    ((pyTruthyStrOpt (some "Tree") || pyTruthyDictOpt none) = true) ∧ ¬((5 : Int) = 0) ∧
    (OdkEntity.updateEntity sampleCentral 1 "trees" "u1" (some "Tree") none (some 5)
        (HttpOutcome.ok Json.null)).1.map Request.url
      = [sampleCentral.base ++ "projects/" ++ toString (1 : Int) ++ "/datasets/" ++ "trees"
          ++ "/entities/" ++ "u1" ++ "?baseVersion=" ++ toString ((5 : Int) - 1)] :=
  ⟨by decide, by decide,
   (updateEntity_version_query sampleCentral 1 "trees" "u1" (some "Tree") none
      (HttpOutcome.ok Json.null) (by decide)).1 5 (by decide)⟩

/-- C3 counterexample: with the integer `newVersion = 0` provided, the PATCH
URL carries `force=true`, not `baseVersion=-1` as the claim's universal
statement over integers would require. -/
theorem updateEntity_newVersion_zero_cex :
    (OdkEntity.updateEntity sampleCentral 1 "trees" "uuid-1" (some "Tree 1") none (some 0)
        (HttpOutcome.ok Json.null)).1.map Request.url
      = ["https://central.example.org/v1/projects/1/datasets/trees/entities/uuid-1?force=true"] ∧
    ¬((["https://central.example.org/v1/projects/1/datasets/trees/entities/uuid-1?force=true"] : List String)
      = ["https://central.example.org/v1/projects/1/datasets/trees/entities/uuid-1?baseVersion=-1"]) :=
  ⟨rfl, by decide⟩

/-- C5 counterexample: `label = ""` is set (not `None`) while `data` is
omitted, yet the call raises the local `ValueError` with zero requests
issued, because the source tests `if not label and not data:` by truthiness
and the empty string is falsy. -/
theorem updateEntity_empty_label_cex :
    OdkEntity.updateEntity sampleCentral 1 "trees" "uuid-1" (some "") none none
        (HttpOutcome.ok Json.null)
      = ([], sampleCentral,
         Except.error (PyError.valueError
           "One of either the 'label' or 'data' fields must be passed")) :=
  rfl

/-- C5 (amended): with both `label` and `data` omitted, `updateEntity` raises
`ValueError` before any request is issued; when at least one of `label`/`data`
is truthy (non-`None` and non-empty), no local precondition error is raised
and the PATCH payload contains exactly the truthy fields — `data` (with its
given mapping) iff `data` is truthy, `label` (with its given string) iff
`label` is truthy, and nothing else. -/
theorem updateEntity_local_precondition (s : OdkCentralState) (p : Int)
    (dn eu : String) (nv : Option Int) (o : HttpOutcome) :
    (OdkEntity.updateEntity s p dn eu none none nv o
      = ([], s, Except.error (PyError.valueError
          "One of either the 'label' or 'data' fields must be passed"))) ∧
    (∀ (label : Option String) (data : Option (List (String × Json))),
      (pyTruthyStrOpt label || pyTruthyDictOpt data) = true →
      (OdkEntity.updateEntity s p dn eu label data nv o).2.2
        ≠ Except.error (PyError.valueError
            "One of either the 'label' or 'data' fields must be passed") ∧
      ((requestPayloadFields (OdkEntity.updateEntity s p dn eu label data nv o)).map
          Prod.fst
        = (if pyTruthyDictOpt data then ["data"] else [])
          ++ (if pyTruthyStrOpt label then ["label"] else [])) ∧
      (lookupField (requestPayloadFields (OdkEntity.updateEntity s p dn eu label data nv o))
          "data"
        = if pyTruthyDictOpt data then some (Json.obj (data.getD [])) else none) ∧
      (lookupField (requestPayloadFields (OdkEntity.updateEntity s p dn eu label data nv o))
          "label"
        = if pyTruthyStrOpt label then some (Json.str (label.getD "")) else none)) := by
  constructor
  · rfl
  · intro label data h
    have hc : (!pyTruthyStrOpt label && !pyTruthyDictOpt data) = false := by
      cases hl : pyTruthyStrOpt label <;> cases hd : pyTruthyDictOpt data <;> simp_all
    cases hl : pyTruthyStrOpt label <;> cases hd : pyTruthyDictOpt data <;>
      simp_all [OdkEntity.updateEntity, requestPayloadFields, lookupField] <;>
      cases o <;> simp [requestPayloadFields, lookupField]

/-- Witness for C5 at concrete inputs: a truthy `data` alone produces a
payload holding exactly the `data` field. -/
theorem updateEntity_local_precondition_witness :
    ((pyTruthyStrOpt none || pyTruthyDictOpt (some [("geometry", Json.str "g")])) = true) ∧
    (lookupField (requestPayloadFields (OdkEntity.updateEntity sampleCentral 1 "trees" "u1"
        none (some [("geometry", Json.str "g")]) none (HttpOutcome.ok Json.null))) "data"
      = if pyTruthyDictOpt (some [("geometry", Json.str "g")]) then
          some (Json.obj ((some [("geometry", Json.str "g")]).getD []))
        else none) :=
  ⟨by decide,
   ((updateEntity_local_precondition sampleCentral 1 "trees" "u1" none
      (HttpOutcome.ok Json.null)).2 none (some [("geometry", Json.str "g")])
      (by decide)).2.2.1⟩

/-- C10: `updateEntity`'s local precondition is decided by truthiness, not
presence: `label = ""` and/or `data = {}` behave exactly like the omitted
arguments (same `ValueError`), and an empty `data` mapping alongside a
non-empty label is silently dropped, leaving a payload with only the label
field. -/
theorem updateEntity_truthiness_semantics (s : OdkCentralState) (p : Int)
    (dn eu : String) (nv : Option Int) (o : HttpOutcome) :
    (OdkEntity.updateEntity s p dn eu (some "") (some []) nv o
      = OdkEntity.updateEntity s p dn eu none none nv o) ∧
    (OdkEntity.updateEntity s p dn eu (some "") none nv o
      = OdkEntity.updateEntity s p dn eu none none nv o) ∧
    (OdkEntity.updateEntity s p dn eu none (some []) nv o
      = OdkEntity.updateEntity s p dn eu none none nv o) ∧
    ((OdkEntity.updateEntity s p dn eu none none nv o).2.2
      = Except.error (PyError.valueError
          "One of either the 'label' or 'data' fields must be passed")) ∧
    (∀ label : String, ¬(label = "") →
      requestPayloadFields (OdkEntity.updateEntity s p dn eu (some label) (some []) nv o)
        = [("label", Json.str label)]) := by
  refine ⟨rfl, rfl, rfl, rfl, fun label hlabel => ?_⟩
  cases o <;>
    simp [OdkEntity.updateEntity, requestPayloadFields, pyTruthyStrOpt, pyTruthyDictOpt,
      hlabel]

/-- Witness for C10 at a concrete input: a non-empty label next to an empty
`data` mapping yields a payload holding only the label. -/
theorem updateEntity_truthiness_semantics_witness :
    ¬(("Tree" : String) = "") ∧
    requestPayloadFields (OdkEntity.updateEntity sampleCentral 1 "trees" "u1"
        (some "Tree") (some []) none (HttpOutcome.ok Json.null))
      = [("label", Json.str "Tree")] :=
  ⟨by decide,
   (updateEntity_truthiness_semantics sampleCentral 1 "trees" "u1" none
      (HttpOutcome.ok Json.null)).2.2.2.2 "Tree" (by decide)⟩

/-- C9: the session's default-header state is mutated exactly at
authentication time — `authenticate` installs the bearer token via a header
update — and every other operation returns a state whose session headers are
those of the input state, for all arguments and outcomes (the operations
only read the session; `listForms` mutates `self.forms`, not the session). -/
theorem session_headers_read_only (s : OdkCentralState) (sess : SessionState)
    (p : Int) (dn eu xform label uuid : String) (m : Bool) (filters : Option Json)
    (labelOpt : Option String) (dataOpt : Option (List (String × Json)))
    (data : List (String × Json)) (nv : Option Int) (o : HttpOutcome)
    (xforms : List (String × HttpOutcome)) (entries : List CreateSpec) (token : Json) :
    (sessionHeadersOf (OdkProject.listForms s p m o).2.1 = sessionHeadersOf s) ∧
    (sessionHeadersOf (OdkProject.listSubmissions s p xform filters o).2.1
      = sessionHeadersOf s) ∧
    (sessionHeadersOf (OdkProject.getAllProjectSubmissions s p xforms filters).2.1
      = sessionHeadersOf s) ∧
    (sessionHeadersOf (OdkEntity.listDatasets s p o).2.1 = sessionHeadersOf s) ∧
    (sessionHeadersOf (OdkEntity.listEntities s p dn o).2.1 = sessionHeadersOf s) ∧
    (sessionHeadersOf (OdkEntity.createEntity s p dn label data uuid o).2.1
      = sessionHeadersOf s) ∧
    (sessionHeadersOf (OdkEntity.createEntities s p dn entries).2.1 = sessionHeadersOf s) ∧
    (sessionHeadersOf (OdkEntity.updateEntity s p dn eu labelOpt dataOpt nv o).2.1
      = sessionHeadersOf s) ∧
    (sessionHeadersOf (OdkEntity.deleteEntity s p dn eu o).2.1 = sessionHeadersOf s) ∧
    (sessionHeadersOf (OdkEntity.getEntityData s p dn o).2.1 = sessionHeadersOf s) ∧
    (OdkCentral.authenticate { s with session := some sess }
        (HttpOutcome.ok (Json.obj [("token", token)]))
      = Except.ok { s with
          session :=
            some ⟨updateAssoc sess.headers "Authorization" ("Bearer " ++ pyStr token)⟩ }) := by
  refine ⟨?_, ?_, rfl, ?_, ?_, ?_, rfl, ?_, ?_, ?_, rfl⟩
  · cases o <;> rfl
  · cases o <;> rfl
  · cases o <;> rfl
  · cases o <;> rfl
  · unfold OdkEntity.createEntity
    split
    · rfl
    · cases o <;> rfl
  · unfold OdkEntity.updateEntity
    split
    · rfl
    · cases o <;> rfl
  · cases o with
    | ok body => cases body <;> rfl
    | clientError e => rfl
    | otherError e => rfl
  · cases o with
    | ok body => cases body <;> rfl
    | clientError e => rfl
    | otherError e => rfl
